import Mathlib

/-!
Shallow embedding of `temp-mongo`'s Docker-backed manager (`src/docker.rs`,
`src/error.rs`).  The container engine daemon and the MongoDB driver are
modelled by an oracle (`DockerWorld`) supplying the outcome of each remote
call; every operation additionally returns the list of engine calls it
issued, so that claims about which calls happen (or never happen) can be
stated and proved.
-/

/-- Model of `bollard::errors::Error`, restricted to the shapes the code
inspects: an HTTP error response from the daemon (with its status code),
and everything else. -/
inductive BollardError where
  | dockerResponseServerError (status_code : Nat) (message : String)
  | other (message : String)
deriving DecidableEq, Repr

/-- Display of a bollard error, as used by `error.to_string()` call sites. -/
def bollardErrorDisplay : BollardError → String
  | .dockerResponseServerError status_code message =>
      "Docker responded with status code " ++ toString status_code ++ ": " ++ message
  | .other message => message

/-- Model of `mongodb::error::Error` (only its identity matters here). -/
abbrev MongoError : Type := String

/-- `TempMongoDockerError` from `src/error.rs`. -/
inductive TempMongoDockerError where
  | bollardConnectionError (e : BollardError)
  | containerCreationError (s : String)
  | mongoConnectionError (e : MongoError)
  | dockerConnectionError (s : String)
deriving DecidableEq, Repr

/-- `bollard::models::PortBinding`. -/
structure PortBinding where
  host_ip : Option String
  host_port : Option String
deriving DecidableEq, Repr

/-- `bollard::models::HostConfig`, restricted to the field the code sets.
The Rust `HashMap` of port bindings is modelled as an association list
(the code only ever builds a single-entry map). -/
structure HostConfig where
  port_bindings : Option (List (String × Option (List PortBinding)))
deriving DecidableEq, Repr

/-- `bollard::container::Config`, restricted to the fields the code sets. -/
structure Config where
  image : Option String
  env : Option (List String)
  host_config : Option HostConfig
deriving DecidableEq, Repr

/-- `bollard::container::CreateContainerOptions`. -/
structure CreateContainerOptions where
  name : String
  platform : Option String
deriving DecidableEq, Repr

/-- `bollard::models::ContainerSummary`, restricted to the `names` field,
which is the only one the code reads (`Option<Vec<String>>`). -/
structure ContainerSummary where
  names : Option (List String)
deriving DecidableEq, Repr

/-- Response of the engine's create-container endpoint (`response.id`). -/
structure CreateContainerResponse where
  id : String
deriving DecidableEq, Repr

/-- The model of `mongodb::Client`: it records the URI string it was
built from (`Client::with_uri_str(uri)`). -/
structure Client where
  uri : String
deriving DecidableEq, Repr

/-- `TempMongoDocker` from `src/docker.rs`: the Docker daemon handle
(carried opaquely) and the optional MongoDB client. -/
structure TempMongoDocker where
  docker_client : Unit
  mongo_client : Option Client
deriving DecidableEq, Repr

/-- One remote call issued against the container engine daemon or the
MongoDB driver.  `startContainer`, `stopContainer` and `removeContainer`
are part of the call vocabulary so that their absence from a trace is a
statable fact. -/
inductive EngineCall where
  | listContainers
  | createContainer (name : String) (config : Config)
  | createImage (from_image : String)
  | startContainer (id : String)
  | stopContainer (id : String)
  | removeContainer (id : String)
  | mongoConnect (uri : String)
deriving DecidableEq, Repr

deriving instance DecidableEq for Except

/-- Oracle for one execution: the response the daemon would give to each
remote call the code can make, and the items of the streamed image pull. -/
structure DockerWorld where
  listContainersResult : Except BollardError (List ContainerSummary)
  createContainerResult : Except BollardError CreateContainerResponse
  pullStream : List (Except BollardError Unit)
  mongoConnectResult : Except MongoError Unit
deriving DecidableEq, Repr

/-- `name.trim_start_matches('/')`: strip every leading `/`. -/
def trimStartSlashes (name : String) : String :=
  String.mk (name.data.dropWhile (fun c => c == '/'))

/-- The predicate of `container_status`: some listed container has a name
equal to `temp_mongo_docker` once leading slashes are stripped. -/
def hasTempMongoName (containers : List ContainerSummary) : Bool :=
  containers.any fun container =>
    (container.names.getD []).any fun name =>
      trimStartSlashes name == "temp_mongo_docker"

/-- `TempMongoDocker::container_status`: list all containers and report
whether the well-known name is present; a listing failure becomes a
`DockerConnectionError` carrying the error's display string. -/
def container_status (w : DockerWorld) :
    Except TempMongoDockerError Bool × List EngineCall :=
  (match w.listContainersResult with
   | .ok containers => .ok (hasTempMongoName containers)
   | .error error => .error (.dockerConnectionError (bollardErrorDisplay error)),
   [.listContainers])

/-- `TempMongoDocker::create_container`: one create call against the
daemon; an engine error is wrapped in `BollardConnectionError`.  The Rust
function returns `Option<Result<..>>` and never produces `None`. -/
def create_container (w : DockerWorld) (container_opts : CreateContainerOptions)
    (container_config : Config) :
    Option (Except TempMongoDockerError Unit) × List EngineCall :=
  (match w.createContainerResult with
   | .ok _response => some (.ok ())
   | .error error => some (.error (.bollardConnectionError error)),
   [.createContainer container_opts.name container_config])

/-- `TempMongoDocker::check_and_create_container`.  Returns the result,
the engine calls issued, and the total milliseconds slept (the Rust code
sleeps `retry_wait_duration` = 50 ms exactly on the 409 branch). -/
def check_and_create_container (w : DockerWorld)
    (container_opts : CreateContainerOptions) (container_config : Config) :
    Except TempMongoDockerError Unit × List EngineCall × Nat :=
  let retry_wait_duration : Nat := 50
  let status := container_status w
  match status.1 with
  | .error e => (.error e, status.2, 0)
  | .ok true => (.ok (), status.2, 0)
  | .ok false =>
    let created := create_container w container_opts container_config
    match created.1 with
    | some (.ok _) => (.ok (), status.2 ++ created.2, 0)
    | some (.error (.bollardConnectionError
        (.dockerResponseServerError status_code msg))) =>
      if status_code == 409 then
        (.ok (), status.2 ++ created.2, retry_wait_duration)
      else
        (.error (.bollardConnectionError
          (.dockerResponseServerError status_code msg)),
         status.2 ++ created.2, 0)
    | some (.error e) => (.error e, status.2 ++ created.2, 0)
    | none => (.ok (), status.2 ++ created.2, 0)

/-- The loop body of `setup_image`: drain the pull stream, stopping at the
first error item (wrapped as a `DockerConnectionError`); also counts how
many stream items were consumed. -/
def drainPull : List (Except BollardError Unit) →
    Except TempMongoDockerError Unit × Nat
  | [] => (.ok (), 0)
  | .ok _ :: rest => ((drainPull rest).1, (drainPull rest).2 + 1)
  | .error e :: _ =>
      (.error (.dockerConnectionError (bollardErrorDisplay e)), 1)

/-- `TempMongoDocker::setup_image`: issue the image pull and drain its
streamed response; returns the image name on success, plus the call trace
and the number of stream items consumed. -/
def setup_image (w : DockerWorld) :
    Except TempMongoDockerError String × List EngineCall × Nat :=
  let mongo_image := "mongo:latest"
  let drained := drainPull w.pullStream
  (match drained.1 with
   | .ok _ => .ok mongo_image
   | .error e => .error e,
   [.createImage mongo_image], drained.2)

/-- The `CreateContainerOptions` literal built inside `create`. -/
def container_opts : CreateContainerOptions :=
  { name := "temp_mongo_docker", platform := none }

/-- The `Config` literal built inside `create`. -/
def container_config : Config :=
  { image := some "mongo:latest"
  , env := some ["MONGO_INITDB_ROOT_USERNAME=myuser",
                 "MONGO_INITDB_ROOT_PASSWORD=mypassword"]
  , host_config := some
      { port_bindings := some
          [("27017/tcp",
            some [{ host_ip := some "127.0.0.1",
                    host_port := some "27017" }])] } }

/-- The URI literal built inside `create`. -/
def createUri : String :=
  "mongodb://127.0.0.1:27017/messenger?directConnection=true"

/-- How a run of `create` ends: normal return of `Ok`, normal return of
`Err`, or a panic (the `.unwrap()` on the result of
`check_and_create_container` aborts instead of returning). -/
inductive CreateOutcome where
  | ok
  | error (e : TempMongoDockerError)
  | panicked (e : TempMongoDockerError)
deriving DecidableEq, Repr

/-- The observable effect of one run of `create`: how it ended, the
manager state afterwards, the engine calls issued, and milliseconds
slept. -/
structure CreateRun where
  outcome : CreateOutcome
  manager : TempMongoDocker
  trace : List EngineCall
  sleptMs : Nat
deriving DecidableEq, Repr

/-- `TempMongoDocker::create`: pull the image, run the check-and-create
step (whose `Result` the Rust code `.unwrap()`s, so its `Err` becomes a
panic), then connect the MongoDB client and store it.  `mongo_client` is
assigned only on the final, fully successful path. -/
def create (m : TempMongoDocker) (w : DockerWorld) : CreateRun :=
  let si := setup_image w
  match si.1 with
  | .error e => { outcome := .error e, manager := m, trace := si.2.1, sleptMs := 0 }
  | .ok _ =>
    let cc := check_and_create_container w container_opts container_config
    match cc.1 with
    | .error e =>
      { outcome := .panicked e, manager := m,
        trace := si.2.1 ++ cc.2.1, sleptMs := cc.2.2 }
    | .ok _ =>
      match w.mongoConnectResult with
      | .error e =>
        { outcome := .error (.mongoConnectionError e), manager := m,
          trace := si.2.1 ++ cc.2.1 ++ [.mongoConnect createUri],
          sleptMs := cc.2.2 }
      | .ok _ =>
        { outcome := .ok,
          manager := { m with mongo_client := some { uri := createUri } },
          trace := si.2.1 ++ cc.2.1 ++ [.mongoConnect createUri],
          sleptMs := cc.2.2 }

/-- `TempMongoDocker::new`: connect to the daemon (outcome given by the
oracle argument); a failure is returned as `BollardConnectionError`; on
success the manager starts with no MongoDB client.  The empty list
records that no engine container operation is issued. -/
def new (connectResult : Except BollardError Unit) :
    Except TempMongoDockerError TempMongoDocker × List EngineCall :=
  match connectResult with
  | .error e => (.error (.bollardConnectionError e), [])
  | .ok _ => (.ok { docker_client := (), mongo_client := none }, [])

/-- Modelled from the spec: the error returned by the teardown
operations, which are described in the spec (§4.4, §7, §8) but absent
from `src/` (only `src/tests/tests.rs` calls them, on a type whose
source is not in `src/`).  `identityNotSet` is the fatal precondition
violation; `engine` wraps an engine-level failure. -/
inductive TeardownError where
  | identityNotSet
  | engine (e : BollardError)
deriving DecidableEq, Repr

/-- Modelled from the spec: the Manager state the teardown controller
sees — it "holds ... the identity (engine-assigned ID or fixed name) of
the container it created", and is "created empty (no container identity,
no database client)". -/
structure SpecManager where
  container_identity : Option String
deriving DecidableEq, Repr

/-- Modelled from the spec: the Manager constructor yields a manager with
no container identity bound ("created empty"). -/
def specNew : SpecManager :=
  { container_identity := none }

/-- Modelled from the spec: a successful fixed-name `create()` binds the
well-known name as the container identity; a failed one keeps none ("no
partial container identity is silently kept around for fixed-name
mode"). -/
def specCreateIdentity (m : SpecManager) (succeeded : Bool) : SpecManager :=
  if succeeded then { container_identity := some "temp_mongo_docker" } else m

/-- Modelled from the spec: `killAndClean()` "requires a bound container
identity (error `IdentityNotSet` otherwise); stops the container, then
removes it. Both steps must succeed ...; a stop failure short-circuits
before attempting removal", and the identity-not-set case is "surfaced
immediately without contacting the engine".  The two oracle arguments
give the engine's answers to the stop and remove calls. -/
def killAndClean (m : SpecManager)
    (stopResult removeResult : Except BollardError Unit) :
    Except TeardownError Unit × List EngineCall :=
  match m.container_identity with
  | none => (.error .identityNotSet, [])
  | some id =>
    match stopResult with
    | .error e => (.error (.engine e), [.stopContainer id])
    | .ok _ =>
      match removeResult with
      | .error e => (.error (.engine e), [.stopContainer id, .removeContainer id])
      | .ok _ => (.ok (), [.stopContainer id, .removeContainer id])

/-- Modelled from the spec: `killNotClean()` "requires a bound identity;
stops only", with the identity-not-set case surfaced without contacting
the engine. -/
def killNotClean (m : SpecManager) (stopResult : Except BollardError Unit) :
    Except TeardownError Unit × List EngineCall :=
  match m.container_identity with
  | none => (.error .identityNotSet, [])
  | some id =>
    match stopResult with
    | .error e => (.error (.engine e), [.stopContainer id])
    | .ok _ => (.ok (), [.stopContainer id])

/-- A container name with a single leading separator stripped: the form
in which the engine reports names (`/temp_mongo_docker`) and in which the
spec phrases the lookup. -/
def stripOneLeadingSlash (name : String) : String :=
  match name.data with
  | c :: rest => if c == '/' then String.mk rest else name
  | [] => name

/-- If stripping one leading slash yields the well-known name, then the
code's `trim_start_matches('/')` also yields it. -/
theorem trimStartSlashes_of_stripOne (name : String)
    (h : stripOneLeadingSlash name = "temp_mongo_docker") :
    trimStartSlashes name = "temp_mongo_docker" := by
  unfold stripOneLeadingSlash at h
  unfold trimStartSlashes
  cases hd : name.data with
  | nil =>
    simp only [hd] at h
    rw [h] at hd
    exact absurd hd (by decide)
  | cons c rest =>
    simp only [hd] at h
    cases hc : (c == '/') with
    | true =>
      simp only [hc, if_pos] at h
      have hr : rest = String.data "temp_mongo_docker" := congrArg String.data h
      have hceq : c = '/' := by simpa using hc
      subst hr
      subst hceq
      decide
    | false =>
      simp only [hc, Bool.false_eq_true, if_false] at h
      subst h
      rw [← hd]
      decide

/-- Whether one streamed pull item is a success item. -/
def pullItemOk : Except BollardError Unit → Bool
  | .ok _ => true
  | .error _ => false

/-- Draining behaviour of the pull-stream loop: success exactly when every
item is a success item, success consumes the whole stream, and a failure
is reported as a `DockerConnectionError`. -/
theorem drainPull_spec (s : List (Except BollardError Unit)) :
    ((drainPull s).1 = .ok () ↔ s.all pullItemOk = true) ∧
    ((drainPull s).1 = .ok () → (drainPull s).2 = s.length) ∧
    ((drainPull s).1 = .ok () ∨
      ∃ msg, (drainPull s).1 = .error (.dockerConnectionError msg)) := by
  induction s with
  | nil => refine ⟨by simp [drainPull], by simp [drainPull], Or.inl rfl⟩
  | cons hd tl ih =>
    cases hd with
    | ok u =>
      cases u
      refine ⟨?_, ?_, ?_⟩
      · simpa [drainPull, pullItemOk] using ih.1
      · intro h
        have hlen := ih.2.1 (by simpa [drainPull] using h)
        simp [drainPull, hlen]
      · rcases ih.2.2 with h | ⟨msg, h⟩
        · exact Or.inl (by simpa [drainPull] using h)
        · exact Or.inr ⟨msg, by simpa [drainPull] using h⟩
    | error e =>
      refine ⟨by simp [drainPull, pullItemOk], by simp [drainPull], ?_⟩
      exact Or.inr ⟨bollardErrorDisplay e, rfl⟩

/-- The trace of `check_and_create_container` is either just the listing
call, or the listing call followed by one create call with the given
options and configuration. -/
theorem check_trace (w : DockerWorld) (o : CreateContainerOptions) (c : Config) :
    (check_and_create_container w o c).2.1 = [.listContainers] ∨
    (check_and_create_container w o c).2.1 =
      [.listContainers, .createContainer o.name c] := by
  rcases w with ⟨ls, cr, pull, mc⟩
  cases ls with
  | error e => exact Or.inl rfl
  | ok cs =>
    cases h : hasTempMongoName cs with
    | true =>
      left
      simp [check_and_create_container, container_status, h]
    | false =>
      right
      cases cr with
      | ok resp =>
        simp [check_and_create_container, container_status, create_container, h]
      | error e =>
        cases e with
        | dockerResponseServerError sc msg =>
          rcases Bool.eq_false_or_eq_true (sc == 409) with h9 | h9 <;>
            simp [check_and_create_container, container_status, create_container, h, h9]
        | other msg =>
          simp [check_and_create_container, container_status, create_container, h]

/-- The five possible call traces of one run of `create`: pull only
(pull failed); pull then list (listing failed, panic); pull, list, mongo
connect (existing container found); pull, list, create (creation failed,
panic); pull, list, create, mongo connect.  In particular no other engine
call ever appears. -/
theorem create_calls (m : TempMongoDocker) (w : DockerWorld) :
    (create m w).trace = [.createImage "mongo:latest"] ∨
    (create m w).trace = [.createImage "mongo:latest", .listContainers] ∨
    (create m w).trace = [.createImage "mongo:latest", .listContainers,
      .mongoConnect createUri] ∨
    (create m w).trace = [.createImage "mongo:latest", .listContainers,
      .createContainer "temp_mongo_docker" container_config] ∨
    (create m w).trace = [.createImage "mongo:latest", .listContainers,
      .createContainer "temp_mongo_docker" container_config,
      .mongoConnect createUri] := by
  have hst : (setup_image w).2.1 = [.createImage "mongo:latest"] := rfl
  have hcc := check_trace w container_opts container_config
  have hname : container_opts.name = "temp_mongo_docker" := rfl
  rw [hname] at hcc
  simp only [create]
  cases h0 : (setup_image w).1 with
  | error e => exact Or.inl hst
  | ok s =>
    cases h1 : (check_and_create_container w container_opts container_config).1 with
    | error e =>
      rcases hcc with h2 | h2
      · exact Or.inr (Or.inl (by rw [hst, h2]; rfl))
      · exact Or.inr (Or.inr (Or.inr (Or.inl (by rw [hst, h2]; rfl))))
    | ok u =>
      cases h3 : w.mongoConnectResult with
      | error e =>
        rcases hcc with h2 | h2
        · exact Or.inr (Or.inr (Or.inl (by rw [hst, h2]; rfl)))
        · exact Or.inr (Or.inr (Or.inr (Or.inr (by rw [hst, h2]; rfl))))
      | ok v =>
        rcases hcc with h2 | h2
        · exact Or.inr (Or.inr (Or.inl (by rw [hst, h2]; rfl)))
        · exact Or.inr (Or.inr (Or.inr (Or.inr (by rw [hst, h2]; rfl))))

/-- A fresh manager, as produced by a successful `new`. -/
def manager0 : TempMongoDocker :=
  { docker_client := (), mongo_client := none }

/-- A world where every engine call succeeds and no matching container
exists yet. -/
def wAllOk : DockerWorld :=
  { listContainersResult := .ok []
  , createContainerResult := .ok { id := "c0" }
  , pullStream := [.ok ()]
  , mongoConnectResult := .ok () }

/-- A world where container creation is rejected with an HTTP 409 naming
conflict. -/
def w409 : DockerWorld :=
  { wAllOk with
      createContainerResult := .error (.dockerResponseServerError 409 "conflict") }

/-- A world where container creation fails with an HTTP 500 server
error. -/
def w500 : DockerWorld :=
  { wAllOk with
      createContainerResult := .error (.dockerResponseServerError 500 "internal server error") }

/-- A world where the MongoDB client connection fails. -/
def wMongoFail : DockerWorld :=
  { wAllOk with mongoConnectResult := .error "connection refused" }

/-- A world whose container listing already holds the well-known name. -/
def wExisting : DockerWorld :=
  { wAllOk with
      listContainersResult := .ok [{ names := some ["/temp_mongo_docker"] }] }

/-- Case analysis of one run of `create`: pull failure (returned error),
check-and-create failure (panic via the `.unwrap()`), MongoDB connection
failure (returned error), or full success (only then is `mongo_client`
assigned). -/
theorem create_cases (m : TempMongoDocker) (w : DockerWorld) :
    (∃ e, (setup_image w).1 = .error e ∧
      create m w =
        { outcome := .error e
        , manager := m
        , trace := (setup_image w).2.1
        , sleptMs := 0 }) ∨
    (∃ e, (setup_image w).1 = .ok "mongo:latest" ∧
      (check_and_create_container w container_opts container_config).1 = .error e ∧
      create m w =
        { outcome := .panicked e
        , manager := m
        , trace := (setup_image w).2.1 ++ (check_and_create_container w container_opts container_config).2.1
        , sleptMs := (check_and_create_container w container_opts container_config).2.2 }) ∨
    (∃ e, (setup_image w).1 = .ok "mongo:latest" ∧
      (check_and_create_container w container_opts container_config).1 = .ok () ∧
      w.mongoConnectResult = .error e ∧
      create m w =
        { outcome := .error (.mongoConnectionError e)
        , manager := m
        , trace := (setup_image w).2.1 ++ (check_and_create_container w container_opts container_config).2.1 ++ [.mongoConnect createUri]
        , sleptMs := (check_and_create_container w container_opts container_config).2.2 }) ∨
    ((setup_image w).1 = .ok "mongo:latest" ∧
      (check_and_create_container w container_opts container_config).1 = .ok () ∧
      w.mongoConnectResult = .ok () ∧
      create m w =
        { outcome := .ok
        , manager := { m with mongo_client := some { uri := createUri } }
        , trace := (setup_image w).2.1 ++ (check_and_create_container w container_opts container_config).2.1 ++ [.mongoConnect createUri]
        , sleptMs := (check_and_create_container w container_opts container_config).2.2 }) := by
  cases hd : (drainPull w.pullStream).1 with
  | error e =>
    have h0 : (setup_image w).1 = .error e := by simp [setup_image, hd]
    exact Or.inl ⟨e, h0, by simp only [create, h0]⟩
  | ok u =>
    cases u
    have h0 : (setup_image w).1 = .ok "mongo:latest" := by simp [setup_image, hd]
    obtain ⟨rc, hc⟩ : ∃ r, (check_and_create_container w container_opts container_config).1 = r :=
      ⟨_, rfl⟩
    cases rc with
    | error e =>
      exact Or.inr (Or.inl ⟨e, h0, hc, by simp only [create, h0, hc]⟩)
    | ok v =>
      cases v
      obtain ⟨rm, hm⟩ : ∃ r, w.mongoConnectResult = r := ⟨_, rfl⟩
      cases rm with
      | error e =>
        exact Or.inr (Or.inr (Or.inl ⟨e, h0, hc, hm, by simp only [create, h0, hc, hm]⟩))
      | ok z =>
        cases z
        exact Or.inr (Or.inr (Or.inr ⟨h0, hc, hm, by simp only [create, h0, hc, hm]⟩))

/-- C7: `new()` only establishes the daemon connection and has no
container side effects: its call trace is empty in both cases, a
connection failure is returned immediately as `BollardConnectionError`,
and on success the manager starts with `mongo_client = none`. -/
theorem new_connects_only (e : BollardError) :
    new (.error e) = (.error (.bollardConnectionError e), []) ∧
    new (.ok ()) = (.ok { docker_client := (), mongo_client := none }, []) :=
  ⟨rfl, rfl⟩

/-- C2: refuted on the code — when the engine rejects creation with an
HTTP 500 (any non-409 error), `create` does not return the wrapped error:
the `.unwrap()` on `check_and_create_container`'s result turns it into a
panic. -/
theorem create_500_panics :
    (create manager0 w500).outcome =
      .panicked (.bollardConnectionError
        (.dockerResponseServerError 500 "internal server error")) :=
  rfl

/-- C10: whenever `create()` returns an error, the manager is unchanged:
`mongo_client` is assigned only as the final step after every fallible
operation succeeded, so a failed `create()` on a freshly constructed
manager leaves `mongo_client = none`. -/
theorem create_error_preserves_manager (m : TempMongoDocker) (w : DockerWorld)
    (e : TempMongoDockerError) (h : (create m w).outcome = .error e) :
    (create m w).manager = m ∧
    (m.mongo_client = none → (create m w).manager.mongo_client = none) := by
  rcases create_cases m w with ⟨e', h0, hq⟩ | ⟨e', h0, hc, hq⟩ |
    ⟨e', h0, hc, hm, hq⟩ | ⟨h0, hc, hm, hq⟩
  · rw [hq]
    exact ⟨rfl, fun hmc => hmc⟩
  · rw [hq] at h
    simp at h
  · rw [hq]
    exact ⟨rfl, fun hmc => hmc⟩
  · rw [hq] at h
    simp at h

/-- Witness for C10 at a concrete failing world: the MongoDB connection
fails, `create` returns an error, and the fresh manager is unchanged. -/
theorem create_error_preserves_manager_witness :
    (create manager0 wMongoFail).manager = manager0 ∧
    (manager0.mongo_client = none →
      (create manager0 wMongoFail).manager.mongo_client = none) :=
  create_error_preserves_manager manager0 wMongoFail
    (.mongoConnectionError "connection refused") rfl

/-- Recognizer for a start-container engine call. -/
def isStartCall : EngineCall → Bool
  | .startContainer _ => true
  | _ => false

/-- Recognizer for a create-container engine call. -/
def isCreateContainerCall : EngineCall → Bool
  | .createContainer _ _ => true
  | _ => false

/-- C3: refuted on the code — `create` never issues a start-container
call in any execution; in the fully successful execution the MongoDB
client is connected directly after the create-container call, with no
start in between, so the container is never started, let alone confirmed
started before connecting. -/
theorem create_never_starts_container :
    (∀ m w, ((create m w).trace.any isStartCall) = false) ∧
    (create manager0 wAllOk).outcome = .ok ∧
    (create manager0 wAllOk).trace =
      [.createImage "mongo:latest", .listContainers,
       .createContainer "temp_mongo_docker" container_config,
       .mongoConnect createUri] := by
  refine ⟨?_, rfl, rfl⟩
  intro m w
  rcases create_calls m w with h | h | h | h | h <;> rw [h] <;> rfl

/-- C4: if the engine's listing holds a container one of whose names
equals `temp_mongo_docker` after stripping a leading separator, then
`create()` issues no create-container call at all. -/
theorem create_skips_when_existing (m : TempMongoDocker) (w : DockerWorld)
    (cs : List ContainerSummary) (c : ContainerSummary) (name : String)
    (hl : w.listContainersResult = .ok cs)
    (hc : c ∈ cs) (hn : name ∈ c.names.getD [])
    (hs : stripOneLeadingSlash name = "temp_mongo_docker") :
    ((create m w).trace.any isCreateContainerCall) = false := by
  have htn : trimStartSlashes name = "temp_mongo_docker" :=
    trimStartSlashes_of_stripOne name hs
  have hname : hasTempMongoName cs = true := by
    unfold hasTempMongoName
    rw [List.any_eq_true]
    refine ⟨c, hc, ?_⟩
    rw [List.any_eq_true]
    refine ⟨name, hn, ?_⟩
    rw [htn]
    decide
  have hcheck : check_and_create_container w container_opts container_config =
      (.ok (), [.listContainers], 0) := by
    simp [check_and_create_container, container_status, hl, hname]
  rcases create_cases m w with ⟨e, h0, hq⟩ | ⟨e, h0, hk, hq⟩ |
    ⟨e, h0, hk, hm, hq⟩ | ⟨h0, hk, hm, hq⟩
  · rw [hq]
    rfl
  · rw [hcheck] at hk
    simp at hk
  · rw [hq, hcheck]
    rfl
  · rw [hq, hcheck]
    rfl

/-- Witness for C4: with `/temp_mongo_docker` already listed, the run of
`create` contains no create-container call. -/
theorem create_skips_when_existing_witness :
    ((create manager0 wExisting).trace.any isCreateContainerCall) = false :=
  create_skips_when_existing manager0 wExisting
    [{ names := some ["/temp_mongo_docker"] }]
    { names := some ["/temp_mongo_docker"] }
    "/temp_mongo_docker" rfl (by decide) (by decide) (by decide)

/-- C5: the endpoint produced by `create()` is exactly the URI
`mongodb://127.0.0.1:27017/messenger?directConnection=true`: loopback
host, the fixed well-known port 27017, the default database and the
direct-connection hint; on success the MongoDB client is connected with
this URI and stored on the manager. -/
theorem create_uri_loopback_27017 (m : TempMongoDocker) (w : DockerWorld)
    (h : (create m w).outcome = .ok) :
    (create m w).manager.mongo_client = some { uri := createUri } ∧
    ((create m w).trace.contains (.mongoConnect createUri)) = true ∧
    createUri = "mongodb://" ++ "127.0.0.1" ++ ":" ++ toString (27017 : Nat)
      ++ "/" ++ "messenger" ++ "?directConnection=true" := by
  rcases create_cases m w with ⟨e, h0, hq⟩ | ⟨e, h0, hk, hq⟩ |
    ⟨e, h0, hk, hm, hq⟩ | ⟨h0, hk, hm, hq⟩
  · rw [hq] at h
    simp at h
  · rw [hq] at h
    simp at h
  · rw [hq] at h
    simp at h
  · refine ⟨by rw [hq], ?_, by decide⟩
    rcases check_trace w container_opts container_config with h2 | h2 <;>
      rw [hq, h2] <;> rfl

/-- Witness for C5 at the all-success world. -/
theorem create_uri_loopback_27017_witness :
    (create manager0 wAllOk).manager.mongo_client = some { uri := createUri } ∧
    ((create manager0 wAllOk).trace.contains (.mongoConnect createUri)) = true ∧
    createUri = "mongodb://" ++ "127.0.0.1" ++ ":" ++ toString (27017 : Nat)
      ++ "/" ++ "messenger" ++ "?directConnection=true" :=
  create_uri_loopback_27017 manager0 wAllOk rfl

/-- C6: `setup_image` succeeds exactly when every item of the streamed
pull response is a success item; on success the entire stream was
consumed before returning (partial consumption is never success), and an
error item in the stream yields an error return. -/
theorem setup_image_drains_fully (w : DockerWorld) :
    ((setup_image w).1 = .ok "mongo:latest" ↔ w.pullStream.all pullItemOk = true) ∧
    ((setup_image w).1 = .ok "mongo:latest" → (setup_image w).2.2 = w.pullStream.length) ∧
    ((setup_image w).1 = .ok "mongo:latest" ∨
      ∃ msg, (setup_image w).1 = .error (.dockerConnectionError msg)) := by
  have hd := drainPull_spec w.pullStream
  have h1 : (setup_image w).1 = .ok "mongo:latest" ↔
      (drainPull w.pullStream).1 = .ok () := by
    obtain ⟨r, hr⟩ : ∃ r, (drainPull w.pullStream).1 = r := ⟨_, rfl⟩
    cases r with
    | ok u =>
      cases u
      simp [setup_image, hr]
    | error e =>
      simp [setup_image, hr]
  have h2 : (setup_image w).2.2 = (drainPull w.pullStream).2 := rfl
  refine ⟨h1.trans hd.1, fun h => by rw [h2]; exact hd.2.1 (h1.mp h), ?_⟩
  rcases hd.2.2 with h | ⟨msg, h⟩
  · exact Or.inl (h1.mpr h)
  · refine Or.inr ⟨msg, ?_⟩
    obtain ⟨r, hr⟩ : ∃ r, (drainPull w.pullStream).1 = r := ⟨_, rfl⟩
    rw [hr] at h
    subst h
    simp [setup_image, hr]

/-- Witness for C6: on a stream of two success items, `setup_image`
succeeds and consumed the whole stream. -/
theorem setup_image_drains_fully_witness :
    (setup_image wAllOk).2.2 = wAllOk.pullStream.length :=
  (setup_image_drains_fully wAllOk).2.1 rfl

/-- C1: in fixed-name mode, when the engine rejects creation with an HTTP
409 naming conflict, `check_and_create_container` sleeps the fixed 50-ms
backoff (tens of milliseconds: at least 10 ms, under 100 ms) and reports
success, and `create` finishes with exactly the outcome and manager state
it would have had if the creation call had succeeded — the conflict is
never surfaced to the caller as an error. -/
theorem create_conflict_benign (m : TempMongoDocker) (w : DockerWorld)
    (cs : List ContainerSummary) (msg : String) (resp : CreateContainerResponse)
    (hl : w.listContainersResult = .ok cs)
    (hn : hasTempMongoName cs = false)
    (h9 : w.createContainerResult = .error (.dockerResponseServerError 409 msg)) :
    check_and_create_container w container_opts container_config =
      (.ok (), [.listContainers, .createContainer "temp_mongo_docker" container_config], 50) ∧
    (10 ≤ (check_and_create_container w container_opts container_config).2.2 ∧
      (check_and_create_container w container_opts container_config).2.2 < 100) ∧
    (create m w).outcome =
      (create m { w with createContainerResult := .ok resp }).outcome ∧
    (create m w).manager =
      (create m { w with createContainerResult := .ok resp }).manager := by
  have hchk : check_and_create_container w container_opts container_config =
      (.ok (), [.listContainers, .createContainer "temp_mongo_docker" container_config], 50) := by
    simp [check_and_create_container, container_status, create_container, hl, hn, h9,
      container_opts]
  have hchk' : check_and_create_container { w with createContainerResult := .ok resp }
      container_opts container_config =
      (.ok (), [.listContainers, .createContainer "temp_mongo_docker" container_config], 0) := by
    simp [check_and_create_container, container_status, create_container, hl, hn,
      container_opts]
  refine ⟨hchk, by rw [hchk]; exact ⟨by decide, by decide⟩, ?_⟩
  obtain ⟨r0, hd⟩ : ∃ r, (drainPull w.pullStream).1 = r := ⟨_, rfl⟩
  cases r0 with
  | error e =>
    have h0 : (setup_image w).1 = .error e := by simp [setup_image, hd]
    have h0' : (setup_image { w with createContainerResult := .ok resp }).1 = .error e := by
      simp [setup_image, hd]
    exact ⟨by simp only [create, h0, h0'], by simp only [create, h0, h0']⟩
  | ok u =>
    cases u
    have h0 : (setup_image w).1 = .ok "mongo:latest" := by simp [setup_image, hd]
    have h0' : (setup_image { w with createContainerResult := .ok resp }).1 =
        .ok "mongo:latest" := by
      simp [setup_image, hd]
    obtain ⟨rm, hm⟩ : ∃ r, w.mongoConnectResult = r := ⟨_, rfl⟩
    have hm' : ({ w with createContainerResult := .ok resp } : DockerWorld).mongoConnectResult
        = rm := hm
    cases rm with
    | error e =>
      have o1 : (create m w).outcome = .error (.mongoConnectionError e) := by
        simp only [create, h0, hchk, hm]
      have o2 : (create m { w with createContainerResult := .ok resp }).outcome =
          .error (.mongoConnectionError e) := by
        simp only [create, h0', hchk']
        simp only [hm]
      have m1 : (create m w).manager = m := by
        simp only [create, h0, hchk, hm]
      have m2 : (create m { w with createContainerResult := .ok resp }).manager = m := by
        simp only [create, h0', hchk']
        simp only [hm]
      exact ⟨o1.trans o2.symm, m1.trans m2.symm⟩
    | ok z =>
      cases z
      have o1 : (create m w).outcome = .ok := by
        simp only [create, h0, hchk, hm]
      have o2 : (create m { w with createContainerResult := .ok resp }).outcome = .ok := by
        simp only [create, h0', hchk']
        simp only [hm]
      have m1 : (create m w).manager =
          { m with mongo_client := some { uri := createUri } } := by
        simp only [create, h0, hchk, hm]
      have m2 : (create m { w with createContainerResult := .ok resp }).manager =
          { m with mongo_client := some { uri := createUri } } := by
        simp only [create, h0', hchk']
        simp only [hm]
      exact ⟨o1.trans o2.symm, m1.trans m2.symm⟩

/-- Witness for C1 at the concrete 409 world. -/
theorem create_conflict_benign_witness :
    check_and_create_container w409 container_opts container_config =
      (.ok (), [.listContainers, .createContainer "temp_mongo_docker" container_config], 50) ∧
    (10 ≤ (check_and_create_container w409 container_opts container_config).2.2 ∧
      (check_and_create_container w409 container_opts container_config).2.2 < 100) ∧
    (create manager0 w409).outcome =
      (create manager0 { w409 with createContainerResult := .ok { id := "c0" } }).outcome ∧
    (create manager0 w409).manager =
      (create manager0 { w409 with createContainerResult := .ok { id := "c0" } }).manager :=
  create_conflict_benign manager0 w409 [] "conflict" { id := "c0" } rfl rfl rfl

/-- C9 (modelled from the spec; the teardown operations are absent from
`src/`): calling either teardown operation on a manager with no bound
container identity — the state of any manager that never completed a
successful `create()`, since the constructor binds none and a failed
fixed-name create keeps none — returns the identity-not-set error
immediately, with zero engine calls made. -/
theorem teardown_requires_identity (m : SpecManager)
    (stopResult removeResult : Except BollardError Unit)
    (h : m.container_identity = none) :
    killAndClean m stopResult removeResult = (.error .identityNotSet, []) ∧
    killNotClean m stopResult = (.error .identityNotSet, []) ∧
    specNew.container_identity = none ∧
    specCreateIdentity m false = m := by
  refine ⟨?_, ?_, rfl, rfl⟩ <;> simp [killAndClean, killNotClean, h]

/-- Witness for C9 on the freshly constructed spec manager. -/
theorem teardown_requires_identity_witness :
    killAndClean specNew (.ok ()) (.ok ()) = (.error .identityNotSet, []) ∧
    killNotClean specNew (.ok ()) = (.error .identityNotSet, []) ∧
    specNew.container_identity = none ∧
    specCreateIdentity specNew false = specNew :=
  teardown_requires_identity specNew (.ok ()) (.ok ()) rfl

/-- C8: every create-container call issued by `create()` uses the fixed
name and the fixed configuration, whose port bindings hold exactly one
entry mapping the container's internal port 27017/tcp one-to-one to host
port 27017, bound to the loopback address 127.0.0.1 only. -/
theorem create_container_port_binding (m : TempMongoDocker) (w : DockerWorld)
    (nm : String) (cfg : Config)
    (h : EngineCall.createContainer nm cfg ∈ (create m w).trace) :
    nm = "temp_mongo_docker" ∧ cfg = container_config ∧
    cfg.host_config = some { port_bindings := some [("27017/tcp", some [{ host_ip := some "127.0.0.1", host_port := some "27017" }])] } := by
  rcases create_calls m w with ht | ht | ht | ht | ht
  all_goals rw [ht] at h
  all_goals simp at h
  all_goals exact ⟨h.1, h.2, by rw [h.2]; rfl⟩

/-- Witness for C8: the creation call of the all-success world carries
the fixed name and configuration. -/
theorem create_container_port_binding_witness :
    "temp_mongo_docker" = "temp_mongo_docker" ∧
    container_config = container_config ∧
    container_config.host_config = some { port_bindings := some [("27017/tcp", some [{ host_ip := some "127.0.0.1", host_port := some "27017" }])] } :=
  create_container_port_binding manager0 wAllOk "temp_mongo_docker" container_config
    (by decide)
